import Mathlib

set_option maxRecDepth 8000

/-!
Verification development for the CookingAgent recipe-recommendation engine.

The TypeScript sources are embedded shallowly:

* machine text (JavaScript strings) is modelled by `String`, with the string
  operations used by the code (`includes`, `toLowerCase`, `trim`, `split`)
  re-implemented as structural recursions over `String.toList` so that every
  definition evaluates inside the kernel;
* JavaScript objects with optional keys are modelled with `Option`; a field of
  a partial preference object is `Option (Option α)` so that a key that is
  *present with value `undefined`* (as produced by the intent extractor's
  failure path) is distinguished from an *absent* key — object spread
  `{...a, ...b}` copies present keys of `b` even when their value is
  `undefined`, and that distinction is observable in `updateUserPreferences`;
* `Record<string, T>` tables are association lists (`List (String × T)`,
  first binding wins, keys unique in practice);
* fallible external collaborators (the LLM calls made through
  `generateObject` / `streamText`) are oracle parameters returning `Except`;
  a thrown JavaScript error is an `Except.error`;
* JavaScript's in-place stable `Array.prototype.sort` is modelled with
  `List.insertionSort`, which is stable for a total relation and therefore
  produces exactly the list V8's stable sort produces; the aliasing between
  the sorted working array and the `KnowledgeBase`'s stored index is tracked
  explicitly.
-/

/-! ## JavaScript string primitives (over `List Char`) -/

/-- JS `String.prototype.includes`: substring containment (modelled on
code points; all text handled by the program is BMP, where JS UTF-16 units
and code points coincide). -/
def jsIncludes (s pat : String) : Bool :=
  decide (pat.toList <:+: s.toList)

/-- JS `String.prototype.toLowerCase`, restricted to ASCII letters; the
program only lowercases Chinese text and ASCII tag names, which full Unicode
lowercasing maps identically. -/
def jsLowerChar (c : Char) : Char :=
  if 'A' ≤ c ∧ c ≤ 'Z' then Char.ofNat (c.toNat + 32) else c

def jsToLower (s : String) : String :=
  ⟨s.toList.map jsLowerChar⟩

/-- JS whitespace test restricted to the ASCII whitespace actually present in
the corpus text. -/
def jsIsWs (c : Char) : Bool :=
  c = ' ' ∨ c = '\n' ∨ c = '\t' ∨ c = '\r'

/-- JS `String.prototype.trim`. -/
def jsTrim (s : String) : String :=
  ⟨((s.toList.dropWhile jsIsWs).reverse.dropWhile jsIsWs).reverse⟩

/-- `String.prototype.length` (UTF-16 units; equal to the code-point count on
the BMP text this program handles). -/
def jsLength (s : String) : Nat :=
  s.toList.length

/-- JS `split` on a character class, as in `stepsText.split(/[。.\\n-]/)`.
Note the source regex `[。.\\n-]` contains an escaped backslash, so the
delimiters are `。`, `.`, `\`, the letter `n` and `-`. -/
def splitClassAux (p : Char → Bool) : List Char → List Char → List (List Char)
  | [], cur => [cur.reverse]
  | c :: rest, cur =>
    if p c then cur.reverse :: splitClassAux p rest []
    else splitClassAux p rest (c :: cur)

def jsSplitClass (s : String) (p : Char → Bool) : List String :=
  (splitClassAux p s.toList []).map fun l => ⟨l⟩

/-- JS `split('\\n')`: the source splits on the *two-character* literal
`\` `n` (an escaped backslash in the TypeScript string literal), not on a
newline. -/
def splitBackslashNAux : List Char → List Char → List (List Char)
  | [], cur => [cur.reverse]
  | [c], cur => [(c :: cur).reverse]
  | a :: b :: rest, cur =>
    if a = '\\' ∧ b = 'n' then cur.reverse :: splitBackslashNAux rest []
    else splitBackslashNAux (b :: rest) (a :: cur)

def jsSplitBackslashN (s : String) : List String :=
  (splitBackslashNAux s.toList []).map fun l => ⟨l⟩

/-- JS truthiness-based defaulting `x || d` for an optional number:
`undefined` and `0` are falsy. -/
def jsOrNat (v : Option Nat) (d : Nat) : Nat :=
  match v with
  | some n => if n = 0 then d else n
  | none => d

/-! ## Data model (`src/types`) -/

/-- `RawRecipe.rawContent`: the unstructured section map. -/
structure RawContent where
  description : Option String
  ingredientsAndTools : Option String
  calculation : Option String
  steps : Option String
  additionalContent : Option String
deriving DecidableEq, Repr

/-- `RawRecipe`. -/
structure RawRecipe where
  dishName : String
  sourceFile : String
  contentHash : String
  category : String
  rawContent : RawContent
deriving DecidableEq, Repr

/-- The four tag dimensions of `ProcessedRecipe.tags` / `RecipeIndex.tags`. -/
structure RecipeTags where
  taste : List String
  cookingStyle : List String
  season : List String
  suitability : List String
deriving DecidableEq, Repr

/-- `ProcessedRecipe` (the enriched record): `RawRecipe` plus tags and a
difficulty. -/
structure ProcessedRecipe extends RawRecipe where
  difficulty : Option Nat
  tags : RecipeTags
deriving DecidableEq, Repr

/-- `RecipeIndex`: the lightweight index entry. -/
structure RecipeIndex where
  dishName : String
  category : String
  difficulty : Option Nat
  tags : RecipeTags
deriving DecidableEq, Repr

/-- A JS object field that can be absent (`none`), present but `undefined`
(`some none`), or present with a value (`some (some v)`). -/
abbrev JsField (α : Type) := Option (Option α)

/-- Reading a JS field: a missing key and an `undefined` value are
indistinguishable to ordinary accesses. -/
def JsField.read {α : Type} (f : JsField α) : Option α := f.join

/-- `UserPreferences`: every key optional; partial objects (extraction
results) share this shape. -/
structure UserPreferences where
  peopleCount : JsField Nat
  tastePreferences : JsField (List String)
  ingredientExclusions : JsField (List String)
  specialGroup : JsField (List String)
  maxCookingTimeMinutes : JsField Nat
deriving DecidableEq, Repr

/-- The empty object `{}`. -/
def emptyPreferences : UserPreferences :=
  ⟨none, none, none, none, none⟩

/-- Truthiness of `p.xs?.length` for an optional array field. -/
def fieldNonEmpty {α : Type} (f : JsField (List α)) : Bool :=
  match f.read with
  | some l => !l.isEmpty
  | none => false

/-- The list value of an optional array field, `[]` when absent. -/
def fieldList {α : Type} (f : JsField (List α)) : List α :=
  (f.read).getD []

/-- `MenuRecommendation`. -/
structure MenuRecommendation where
  dishName : String
  recommendationReason : String
deriving DecidableEq, Repr

/-! ## `scripts/data-processing/LLMBasedTagger.ts` -/

/-- `estimateDifficulty`, with the 0.5-granular JS arithmetic carried in
half-units (`diff2` is twice the JS `difficulty`); `Math.round` rounds halves
up, which on half-units is `(diff2 + 1) / 2` in natural division. -/
def estimateDifficulty (recipe : RawRecipe) : Nat :=
  let stepsText := recipe.rawContent.steps.getD ""
  let ingredientsText := recipe.rawContent.ingredientsAndTools.getD ""
  let stepCount :=
    ((jsSplitClass stepsText fun c =>
        c = '。' ∨ c = '.' ∨ c = '\\' ∨ c = 'n' ∨ c = '-').filter
      fun s => 10 < jsLength (jsTrim s)).length
  let complexMethods := ["炸", "炖", "焖", "烤", "蒸"]
  let hasComplexMethod := complexMethods.any fun m => jsIncludes stepsText m
  let ingredientLines :=
    ((jsSplitBackslashN ingredientsText).filter
      fun l => 0 < jsLength (jsTrim l)).length
  let diff2 : Nat :=
    2 + (if 10 < stepCount then 4 else if 5 < stepCount then 2 else 0)
      + (if hasComplexMethod then 2 else 0)
      + (if 15 < ingredientLines then 2
         else if 10 < ingredientLines then 1 else 0)
  min 5 (max 1 ((diff2 + 1) / 2))

/-- The lowercased concatenation `dishName + ' ' + steps + ' ' + ingredients`
over which all fallback keyword tests run. -/
def fallbackAllText (recipe : RawRecipe) : String :=
  jsToLower recipe.dishName ++ " " ++ jsToLower (recipe.rawContent.steps.getD "")
    ++ " " ++ jsToLower (recipe.rawContent.ingredientsAndTools.getD "")

/-- The taste component of `generateFallbackTags` (default `香` when no
keyword matched). -/
def fallbackTaste (recipe : RawRecipe) : List String :=
  let inc := fun (kw : String) => jsIncludes (fallbackAllText recipe) kw
  let taste :=
    (if inc "辣" ∨ inc "椒" ∨ inc "麻" then ["辣"] else [])
    ++ (if inc "酸" ∨ inc "醋" ∨ inc "柠檬" then ["酸"] else [])
    ++ (if inc "甜" ∨ inc "糖" ∨ inc "蜜" then ["甜"] else [])
    ++ (if inc "咸" ∨ inc "盐" ∨ inc "酱油" then ["咸"] else [])
    ++ (if inc "鲜" ∨ inc "味精" ∨ inc "鸡精" then ["鲜"] else [])
  if taste.isEmpty then ["香"] else taste

/-- The cooking-style component of `generateFallbackTags` (category default
when no keyword matched). -/
def fallbackCookingStyle (recipe : RawRecipe) : List String :=
  let inc := fun (kw : String) => jsIncludes (fallbackAllText recipe) kw
  let cookingStyle :=
    (if inc "炒" then ["炒"] else [])
    ++ (if inc "蒸" then ["蒸"] else [])
    ++ (if inc "炖" ∨ inc "煨" then ["炖"] else [])
    ++ (if inc "炸" then ["炸"] else [])
    ++ (if inc "凉拌" ∨ inc "拌" then ["凉拌"] else [])
    ++ (if inc "烤" then ["烤"] else [])
    ++ (if inc "烧" ∨ inc "红烧" then ["烧"] else [])
    ++ (if inc "焖" then ["焖"] else [])
    ++ (if inc "煮" ∨ inc "水煮" then ["煮"] else [])
    ++ (if inc "煎" then ["煎"] else [])
    ++ (if inc "烙" then ["烙"] else [])
    ++ (if inc "汆" then ["汆"] else [])
  if cookingStyle.isEmpty then
    if recipe.category = "soup" then ["煮"]
    else if recipe.category = "vegetable_dish" then ["炒"]
    else if recipe.category = "meat_dish" then ["烧"]
    else ["炒"]
  else cookingStyle

/-- `dangerousIngredients.some(kw => allText.includes(kw))`. -/
def hasRiskKeyword (recipe : RawRecipe) : Bool :=
  ["酒", "咖啡", "生", "半生", "血"].any fun kw =>
    jsIncludes (fallbackAllText recipe) kw

/-- `spicyKeywords.some(kw => allText.includes(kw))`. -/
def hasSpiceKeyword (recipe : RawRecipe) : Bool :=
  ["辣", "椒", "麻"].any fun kw => jsIncludes (fallbackAllText recipe) kw

/-- The conservative suitability component of `generateFallbackTags`:
`kid_friendly` requires no risk keyword *and* no spice keyword, while
`pregnancy_safe` only requires no risk keyword. -/
def fallbackSuitability (recipe : RawRecipe) : List String :=
  (if ¬hasRiskKeyword recipe ∧ ¬hasSpiceKeyword recipe then ["kid_friendly"]
   else [])
  ++ (if ¬hasRiskKeyword recipe then ["pregnancy_safe"] else [])

/-- `generateFallbackTags`: deterministic keyword/category heuristics; four
seasons by default. -/
def generateFallbackTags (recipe : RawRecipe) : RecipeTags :=
  { taste := fallbackTaste recipe
    cookingStyle := fallbackCookingStyle recipe
    season := ["春", "夏", "秋", "冬"]
    suitability := fallbackSuitability recipe }

/-- `tagRecipe`: one collaborator invocation (the oracle outcome `llm` is the
result of `generateObject`); on failure the fallback tags are synthesized.
Both branches attach the locally computed difficulty. The second component
counts collaborator invocations (always 1). -/
def tagRecipe (llm : Except Unit RecipeTags) (recipe : RawRecipe) :
    ProcessedRecipe × Nat :=
  match llm with
  | .ok tags =>
    ({ toRawRecipe := recipe, difficulty := some (estimateDifficulty recipe),
       tags := tags }, 1)
  | .error _ =>
    ({ toRawRecipe := recipe, difficulty := some (estimateDifficulty recipe),
       tags := generateFallbackTags recipe }, 1)

/-- Is `recipe` unchanged relative to `existingData` (same identifier present
with the same stored content hash)? -/
def cacheHit (existingData : List (String × ProcessedRecipe))
    (recipe : RawRecipe) : Bool :=
  match existingData.lookup recipe.dishName with
  | some e => e.contentHash = recipe.contentHash
  | none => false

/-- `tagRecipesIncremental`: per raw recipe, reuse the cached record on an
unchanged fingerprint (no collaborator invocation), otherwise tag it
(`tagRecipe` always succeeds thanks to its fallback, so the null branch of
the source loop is dead). The second component is `apiCallCount`; the
rate-limiting delay is a pure timing effect and not modelled. -/
def tagRecipesIncremental (llm : RawRecipe → Except Unit RecipeTags) :
    List RawRecipe → List (String × ProcessedRecipe) →
    List ProcessedRecipe × Nat
  | [], _ => ([], 0)
  | r :: rs, existingData =>
    let rest := tagRecipesIncremental llm rs existingData
    match existingData.lookup r.dishName with
    | some e =>
      if e.contentHash = r.contentHash then (e :: rest.1, rest.2)
      else
        let t := tagRecipe (llm r) r
        (t.1 :: rest.1, rest.2 + t.2)
    | none =>
      let t := tagRecipe (llm r) r
      (t.1 :: rest.1, rest.2 + t.2)

/-! ## `MenuRecommender` (`src/agents/MenuRecommender.ts`) -/

/-- The three candidate buckets produced by
`KnowledgeBase.getRecommendedCandidates`. -/
structure CandidateDishes where
  mainDishes : List ProcessedRecipe
  vegetableDishes : List ProcessedRecipe
  soups : List ProcessedRecipe
deriving DecidableEq, Repr

/-- The result of `calculateMenuComposition`. -/
structure MenuComposition where
  mainDishes : Nat
  vegetableDishes : Nat
  soups : Nat
  totalDishes : Nat
deriving DecidableEq, Repr

/-- `calculateMenuComposition`: `total = peopleCount + 1`,
`vegetableDishes = floor(total/2)`, `mainDishes = ceil(total/2)`, one soup for
more than four diners; the returned `totalDishes` is the recomputed sum. -/
def calculateMenuComposition (peopleCount : Nat) : MenuComposition :=
  let totalDishes := peopleCount + 1
  let vegetableDishes := totalDishes / 2
  let mainDishes := (totalDishes + 1) / 2
  let soups := if 4 < peopleCount then 1 else 0
  { mainDishes := mainDishes
    vegetableDishes := vegetableDishes
    soups := soups
    totalDishes := mainDishes + vegetableDishes + soups }

/-- `generateFallbackMenu`: the first `mainDishes` protein candidates, first
`vegetableDishes` vegetable candidates and first `soups` soup candidates, in
bucket order, with templated justifications. -/
def generateFallbackMenu (candidateDishes : CandidateDishes)
    (peopleCount : Nat) : List MenuRecommendation :=
  let composition := calculateMenuComposition peopleCount
  let mains :=
    (candidateDishes.mainDishes.take composition.mainDishes).map fun dish =>
      { dishName := dish.dishName
        recommendationReason :=
          "经典" ++ (if dish.category = "meat_dish" then "荤菜" else "海鲜")
            ++ "，营养丰富，适合家庭聚餐。" : MenuRecommendation }
  let vegetables :=
    (candidateDishes.vegetableDishes.take composition.vegetableDishes).map
      fun dish =>
        { dishName := dish.dishName
          recommendationReason := "清爽素菜，平衡荤腥，提供丰富维生素和纤维。" }
  let soups :=
    if 0 < composition.soups then
      (candidateDishes.soups.take composition.soups).map fun dish =>
        { dishName := dish.dishName
          recommendationReason := "暖胃汤品，有助消化，丰富用餐层次。" :
            MenuRecommendation }
    else []
  mains ++ vegetables ++ soups

/-- The identifiers of the union of the three candidate buckets
(`availableDishNames`; a JS `Set`, but only membership is consulted). -/
def availableDishNames (candidateDishes : CandidateDishes) : List String :=
  (candidateDishes.mainDishes ++ candidateDishes.vegetableDishes
    ++ candidateDishes.soups).map fun dish => dish.dishName

/-- `recommendMenu`: `llm` is the outcome of the `generateObject` collaborator
call (the parsed `menu` array on success); its items are validated against the
candidate buckets, warned-and-dropped when unknown, and the deterministic
fallback replaces the whole result when validation leaves fewer than
`totalDishes - 1` items or when the collaborator failed. -/
def recommendMenu (llm : Except Unit (List MenuRecommendation))
    (preferences : UserPreferences) (candidateDishes : CandidateDishes) :
    List MenuRecommendation :=
  let peopleCount := jsOrNat preferences.peopleCount.read 2
  let menuComposition := calculateMenuComposition peopleCount
  let available := availableDishNames candidateDishes
  match llm with
  | .ok recommendedMenu =>
    let validatedMenu :=
      recommendedMenu.filter fun item => available.contains item.dishName
    if validatedMenu.length < menuComposition.totalDishes - 1 then
      generateFallbackMenu candidateDishes peopleCount
    else validatedMenu
  | .error _ => generateFallbackMenu candidateDishes peopleCount

/-! ## `KnowledgeBase` (`src/lib/KnowledgeBase.ts`)

The in-memory state after a successful `loadData`: the parsed index array and
data table. The load itself is persistence I/O outside the query layer; the
query methods below are modelled over an already-loaded state, and the two
state components are returned alongside each result so that mutation of the
shared arrays is observable. -/

structure KnowledgeBase where
  recipesIndex : List RecipeIndex
  recipesData : List (String × ProcessedRecipe)
deriving DecidableEq, Repr

/-- Does an index entry's taste tag set intersect the requested tastes? -/
def tasteMatches (tastePreferences : List String) (e : RecipeIndex) : Bool :=
  tastePreferences.any fun taste => e.tags.taste.contains taste

/-- Stage 1 of `searchRecipes` (the taste soft filter): the working set, plus
whether the working set still *aliases* the stored `recipesIndex` array
(`filter` returns a fresh array; keeping all candidates keeps the alias). -/
def tasteStage (preferences : UserPreferences)
    (recipesIndex : List RecipeIndex) : List RecipeIndex × Bool :=
  if fieldNonEmpty preferences.tastePreferences then
    let filteredByTaste :=
      recipesIndex.filter (tasteMatches (fieldList preferences.tastePreferences))
    if 0 < filteredByTaste.length then (filteredByTaste, false)
    else (recipesIndex, true)
  else (recipesIndex, true)

/-- The suitability score of the special-group comparator. -/
def suitabilityScore (specialGroup : List String) (e : RecipeIndex) : Nat :=
  (if specialGroup.contains "kid" ∧ e.tags.suitability.contains "kid_friendly"
   then 2 else 0)
  + (if specialGroup.contains "pregnant"
       ∧ e.tags.suitability.contains "pregnancy_safe" then 2 else 0)

/-- Stage 2 of `searchRecipes`: `candidates.sort((a,b) => scoreB - scoreA)`,
i.e. the stable descending sort by suitability score. `Array.prototype.sort`
with a stable algorithm (V8) produces the unique stable sorted order, which
`List.insertionSort` with the total relation `score b ≤ score a` also
produces. The sort is *in place*. -/
def specialGroupSort (specialGroup : List String)
    (candidates : List RecipeIndex) : List RecipeIndex :=
  candidates.insertionSort fun a b =>
    suitabilityScore specialGroup b ≤ suitabilityScore specialGroup a

/-- Stage 3 of `searchRecipes` (ingredient exclusions, a hard filter). The
source reads `this.recipesData[recipe.dishName].rawContent` without a null
check, so an index identifier missing from the data table makes the filter
callback throw a `TypeError` (`Except.error`). -/
def exclusionFilter (ingredientExclusions : List String)
    (recipesData : List (String × ProcessedRecipe)) :
    List RecipeIndex → Except Unit (List RecipeIndex)
  | [] => .ok []
  | e :: rest =>
    match recipesData.lookup e.dishName with
    | none => .error ()
    | some fullRecipe =>
      let ingredientsText :=
        jsToLower (fullRecipe.rawContent.ingredientsAndTools.getD "")
      let keep :=
        !(ingredientExclusions.any fun exclusion =>
          jsIncludes ingredientsText (jsToLower exclusion))
      match exclusionFilter ingredientExclusions recipesData rest with
      | .ok kept => .ok (if keep then e :: kept else kept)
      | .error er => .error er

/-- `searchRecipes`. Returns the result of the call — the surviving index
entries mapped through the data table *without* a null check, so a missing
identifier appears as `none` (JS `undefined`) in the returned array — or the
thrown error, together with the knowledge-base state after the call: when the
special-group sort ran on a working set that still aliased `recipesIndex`
(no taste subsetting happened), the stored index itself has been reordered. -/
def searchRecipes (preferences : UserPreferences) (kb : KnowledgeBase) :
    Except Unit (List (Option ProcessedRecipe)) × KnowledgeBase :=
  let (candidates, aliased) := tasteStage preferences kb.recipesIndex
  let doSort := fieldNonEmpty preferences.specialGroup
  let candidates :=
    if doSort then specialGroupSort (fieldList preferences.specialGroup) candidates
    else candidates
  let kb' :=
    if doSort ∧ aliased then { kb with recipesIndex := candidates } else kb
  let afterExclusions :=
    if fieldNonEmpty preferences.ingredientExclusions then
      exclusionFilter (fieldList preferences.ingredientExclusions)
        kb.recipesData candidates
    else .ok candidates
  let result :=
    match afterExclusions with
    | .ok surviving =>
      .ok (surviving.map fun e => kb.recipesData.lookup e.dishName)
    | .error er => .error er
  (result, kb')

/-- `getDishByName` (the `|| null` makes the miss explicit). -/
def getDishByName (kb : KnowledgeBase) (dishName : String) :
    Option ProcessedRecipe :=
  kb.recipesData.lookup dishName

/-- `getRecipesByCategory`: filters the index by category, maps through the
data table, and — unlike the other query methods — drops missing records with
its `recipe != null` filter. -/
def getRecipesByCategory (kb : KnowledgeBase) (category : String) :
    List ProcessedRecipe :=
  ((kb.recipesIndex.filter fun e => e.category = category).map
    fun e => kb.recipesData.lookup e.dishName).filterMap id

/-- `getRecipesByDifficulty`: maps through the data table with no null check,
so missing identifiers surface as `none` (JS `undefined`) entries. -/
def getRecipesByDifficulty (kb : KnowledgeBase) (maxDifficulty : Nat) :
    List (Option ProcessedRecipe) :=
  (kb.recipesIndex.filter fun e => jsOrNat e.difficulty 1 ≤ maxDifficulty).map
    fun e => kb.recipesData.lookup e.dishName

/-! ## `IntentExtractor` (`src/agents/IntentExtractor.ts`) -/

/-- Truthiness of an optional number (`undefined` and `0` are falsy). -/
def jsTruthyNat (v : Option Nat) : Bool :=
  match v with
  | some n => n ≠ 0
  | none => false

/-- Truthiness of an optional string (`undefined` and `''` are falsy). -/
def jsTruthyStr (v : Option String) : Bool :=
  match v with
  | some t => t ≠ ""
  | none => false

/-- The user-term → database-tag taste mapping of `mapTastePreferences`. -/
def tasteMapping : List (String × List String) :=
  [("清淡", ["鲜"]), ("清爽", ["鲜"]), ("不油腻", ["鲜"]), ("淡", ["鲜"]),
   ("鲜美", ["鲜"]), ("香", ["香"]), ("香味", ["香"]), ("辣", ["辣"]),
   ("微辣", ["微辣"]), ("甜", ["甜"]), ("酸", ["酸"]), ("咸", ["咸"]),
   ("麻", ["麻"]), ("苦", ["苦"])]

/-- Insertion into a JS `Set` modelled on insertion-ordered lists. -/
def setAdd (acc : List String) (x : String) : List String :=
  if acc.contains x then acc else acc ++ [x]

/-- `mapTastePreferences`: rewrites each taste through the synonym mapping,
deduplicating via an insertion-ordered `Set`. `!preferences.tastePreferences`
is false for a *present* empty array (arrays are truthy), so only an absent or
`undefined` field short-circuits. -/
def mapTastePreferences (preferences : UserPreferences) : UserPreferences :=
  match preferences.tastePreferences.read with
  | none => preferences
  | some tastes =>
    let mappedTastes :=
      tastes.foldl
        (fun acc taste =>
          match tasteMapping.lookup taste with
          | some mapped => mapped.foldl setAdd acc
          | none => setAdd acc taste)
        []
    { preferences with tastePreferences := some (some mappedTastes) }

/-- `extractIntent`: on collaborator success the extracted object is
post-processed by `mapTastePreferences`; on any failure the method returns an
object whose five keys are all *present with value `undefined`*. -/
def extractIntentResult (llm : Except Unit UserPreferences) : UserPreferences :=
  match llm with
  | .ok preferences => mapTastePreferences preferences
  | .error _ => ⟨some none, some none, some none, some none, some none⟩

/-- The result shape of `validatePreferences`. -/
structure PreferenceValidation where
  isValid : Bool
  missingInfo : List String
  suggestions : List String
deriving DecidableEq, Repr

/-- `validatePreferences`: people count present (and non-zero), plus a taste
preference or a special group. -/
def validatePreferences (preferences : UserPreferences) :
    PreferenceValidation :=
  let missingPeople := !jsTruthyNat preferences.peopleCount.read
  let missingTaste :=
    !fieldNonEmpty preferences.tastePreferences
      ∧ !fieldNonEmpty preferences.specialGroup
  let missingInfo :=
    (if missingPeople then ["用餐人数"] else [])
    ++ (if missingTaste then ["口味偏好或特殊需求"] else [])
  let suggestions :=
    (if missingPeople then ["请告诉我有几个人用餐？"] else [])
    ++ (if missingTaste then ["您有什么口味偏好吗？比如想吃辣的、清淡的？"] else [])
    ++ (if jsTruthyNat preferences.peopleCount.read
          ∧ 6 < (preferences.peopleCount.read).getD 0 then
          ["人数较多，建议增加一些容易制作的大份菜品。"] else [])
    ++ (if (fieldList preferences.specialGroup).contains "kid" then
          ["有小朋友，建议选择不太辣、口味温和的菜品。"] else [])
    ++ (if (fieldList preferences.specialGroup).contains "pregnant" then
          ["有孕妇，会避免推荐生冷、刺激性食物。"] else [])
  { isValid := missingInfo.isEmpty
    missingInfo := missingInfo
    suggestions := suggestions }

/-- The action classification of `interpretFollowUpRequest`. -/
inductive FollowUpAction where
  | confirm
  | replace
  | modify
  | question
  | unrecognized
deriving DecidableEq, Repr

/-- The pure pattern classification of `interpretFollowUpRequest` (the
`modify_preferences` branch additionally re-invokes the intent extractor, but
its result travels in `details` which `handleMenuResponse` never reads, so it
has no effect on the session). -/
def interpretAction (userInput : String) : FollowUpAction :=
  let lowerInput := jsToLower userInput
  if jsIncludes lowerInput "确认" ∨ jsIncludes lowerInput "好的"
      ∨ jsIncludes lowerInput "就这些" then .confirm
  else if ["换", "替换", "不要", "改成"].any (jsIncludes lowerInput) then
    .replace
  else if ["人数", "口味", "辣", "甜", "咸", "清淡", "不吃", "忌口"].any
      (jsIncludes lowerInput) then .modify
  else if (["怎么做", "怎么", "为什么", "什么时候", "多长时间", "怎样"].any
      (jsIncludes lowerInput)) ∨ jsIncludes lowerInput "?"
      ∨ jsIncludes lowerInput "？" then .question
  else .unrecognized

/-! ## `WorkflowPlanner` (`src/agents/WorkflowPlanner.ts`) -/

/-- `estimateContentLength`: characters across the menu plus the prompt
template allowance. -/
def estimateContentLength (confirmedMenu : List ProcessedRecipe) : Nat :=
  confirmedMenu.foldl
    (fun total recipe =>
      total + jsLength recipe.dishName
        + jsLength (recipe.rawContent.ingredientsAndTools.getD "")
        + jsLength (recipe.rawContent.calculation.getD "")
        + jsLength (recipe.rawContent.steps.getD ""))
    0
  + 1000

/-- `generateFallbackWorkflow`: the deterministic staged outline substituted
on any planning failure. -/
def generateFallbackWorkflow (confirmedMenu : List ProcessedRecipe) : String :=
  let dishNames := String.intercalate "、" (confirmedMenu.map fun r => r.dishName)
  "# 烹饪流程规划 - " ++ dishNames
    ++ "\n\n## 🕒 总体时间安排\n\n由于菜品较多，建议预留 **2-3小时** 的烹饪时间。\n\n## 📋 基础流程建议\n\n### 1. 准备阶段 (0-30分钟)\n✨ **并行任务：**\n- 将所有食材洗净、切好\n- 准备所有调料和工具\n- 开始处理需要长时间烹饪的菜品\n\n### 2. 主要烹饪阶段 (30-120分钟)\n✨ **并行任务：**\n- 炖煮类菜品：先开始制作，利用炖煮时间处理其他菜品\n- 米饭类主食：可以同时进行\n- 准备工作：在等待过程中处理其他食材\n\n### 3. 收尾阶段 (最后30分钟)\n🔥 **关键时间节点：**\n- 炒菜类：最后制作，保证热度\n- 凉菜：可以提前准备\n- 汤类：注意保温\n\n## ⚠️ 重要提醒\n\n1. **设备协调**：合理安排燃气灶、电饭煲等设备使用\n2. **时间把控**：容易过火的菜品要重点关注\n3. **温度保持**：热菜要保证同时上桌的热度\n\n*建议针对具体菜品询问详细制作步骤。*"

/-- `planWorkflow`: detailed mode below the context threshold, macro mode
above it (the mode only selects the prompt; `llm` is the outcome of the
chosen `streamText` call), and the deterministic fallback on any thrown
error — the method itself never throws. -/
def planWorkflow (llm : Bool → List ProcessedRecipe → Except Unit String)
    (confirmedMenu : List ProcessedRecipe) : String :=
  let useDetailedPlanning := estimateContentLength confirmedMenu < 8000
  match llm useDetailedPlanning confirmedMenu with
  | .ok workflowText => workflowText
  | .error _ => generateFallbackWorkflow confirmedMenu

/-! ## `ConversationEngine` (`src/lib/ConversationEngine.ts`) -/

inductive Role where
  | user
  | assistant
deriving DecidableEq, Repr

/-- A history entry (the wall-clock timestamp is omitted: no control flow
reads it). -/
structure Message where
  role : Role
  content : String
deriving DecidableEq, Repr

inductive ConvState where
  | awaitingPreferences
  | recommendingMenu
  | generatingShoppingList
  | planningWorkflow
  | readyForQuestions
deriving DecidableEq, Repr

/-- The mutable fields of a `ConversationEngine` instance. -/
structure Session where
  state : ConvState
  messages : List Message
  userPreferences : UserPreferences
  recommendedMenu : List MenuRecommendation
  confirmedMenu : List ProcessedRecipe
deriving DecidableEq, Repr

/-- The freshly constructed engine. -/
def initialSession : Session :=
  { state := .awaitingPreferences
    messages := []
    userPreferences := emptyPreferences
    recommendedMenu := []
    confirmedMenu := [] }

/-- The external collaborators and knowledge-base services the engine calls,
as oracles; `Except.error` is a thrown JavaScript error carrying its
message. -/
structure Collaborators where
  extractIntentLLM : String → List Message → Except Unit UserPreferences
  menuLLM : UserPreferences → CandidateDishes → Except Unit (List MenuRecommendation)
  workflowLLM : Bool → List ProcessedRecipe → Except Unit String
  kbCandidates : UserPreferences → Except String CandidateDishes
  kbDishByName : String → Except String (Option ProcessedRecipe)
  kbByCategory : String → Except String (List ProcessedRecipe)

/-- `updateUserPreferences`: the object spread
`{ ...this.userPreferences, ...preferences }` — every key *present* on the
update (also one holding `undefined`) overwrites the accumulated key. -/
def jsSpreadPreferences (old upd : UserPreferences) : UserPreferences :=
  { peopleCount := upd.peopleCount.or old.peopleCount
    tastePreferences := upd.tastePreferences.or old.tastePreferences
    ingredientExclusions := upd.ingredientExclusions.or old.ingredientExclusions
    specialGroup := upd.specialGroup.or old.specialGroup
    maxCookingTimeMinutes :=
      upd.maxCookingTimeMinutes.or old.maxCookingTimeMinutes }

def updateUserPreferences (s : Session) (preferences : UserPreferences) :
    Session :=
  { s with userPreferences := jsSpreadPreferences s.userPreferences preferences }

/-- `getWelcomeMessage`. -/
def welcomeMessage : String :=
  "🍳 欢迎使用 CookingAgent - 您的智能烹饪助手！\n\n我可以帮您：\n• 🎯 根据人数和偏好推荐菜单\n• 🛒 生成详细的购物清单  \n• ⏰ 规划高效的烹饪流程\n• ❓ 回答烹饪相关的问题\n\n请告诉我您的用餐需求，比如：\n- 有几个人用餐？\n- 想吃什么口味的？（辣的、清淡的等）\n- 有什么忌口的吗？\n- 有小孩或孕妇需要特别注意的吗？"

/-- `reset()`: back to `AWAITING_PREFERENCES` with cleared preferences, menus
and history (plus the re-appended welcome message). -/
def resetSession : Session :=
  { state := .awaitingPreferences
    messages := [{ role := .assistant, content := welcomeMessage }]
    userPreferences := emptyPreferences
    recommendedMenu := []
    confirmedMenu := [] }

/-- `generateShoppingList`: deterministic concatenation of the ingredient and
quantity sections of the confirmed records (empty sections are falsy and
skipped). -/
def generateShoppingList (confirmedMenu : List ProcessedRecipe) :
    List String :=
  (confirmedMenu.enum.map fun p =>
    (if jsTruthyStr p.2.rawContent.ingredientsAndTools then
      ["## " ++ toString (p.1 + 1) ++ ". " ++ p.2.dishName,
       p.2.rawContent.ingredientsAndTools.getD "", ""]
     else [])
    ++ (if jsTruthyStr p.2.rawContent.calculation then
      ["### 计算 - " ++ p.2.dishName,
       p.2.rawContent.calculation.getD "", ""]
     else [])).flatten

/-- The per-turn result `{ message, state }`. -/
structure TurnResult where
  message : String
  state : ConvState
deriving DecidableEq, Repr

/-- The lookup loop of `confirmMenu`: resolve each confirmed identifier via
`KnowledgeBase.getDishByName`, dropping identifiers that fail to resolve; a
thrown knowledge-base error propagates before any session field is
assigned. -/
def confirmMenuLookup (c : Collaborators) :
    List String → Except String (List ProcessedRecipe)
  | [] => .ok []
  | dishName :: rest =>
    match c.kbDishByName dishName with
    | .error e => .error e
    | .ok found =>
      match confirmMenuLookup c rest with
      | .error e => .error e
      | .ok others =>
        .ok (match found with
             | some recipe => recipe :: others
             | none => others)

/-- `replaceDish` (the engine method): alternative candidates of the caller's
bucket (or all buckets), excluding the other dishes already on the menu,
first five. Reads the session, never writes it. -/
def replaceDishAlternatives (c : Collaborators) (oldDishName : String)
    (category : Option String) (s : Session) :
    Except String (List ProcessedRecipe) :=
  let currentDishNames := s.confirmedMenu.map fun r => r.dishName
  let currentDishNamesExcludingOld :=
    currentDishNames.filter fun n => n ≠ oldDishName
  let fetched :=
    match category with
    | some cat => c.kbByCategory cat
    | none =>
      match c.kbCandidates s.userPreferences with
      | .error e => .error e
      | .ok suggestions =>
        .ok (suggestions.mainDishes ++ suggestions.vegetableDishes
          ++ suggestions.soups)
  match fetched with
  | .error e => .error e
  | .ok alternatives =>
    .ok ((alternatives.filter fun r =>
      !currentDishNamesExcludingOld.contains r.dishName).take 5)

/-- The leftmost match of `/(?:换掉|替换|不要)(.+?)(?:$|，|。)/`: scan for the
first keyword occurrence followed by at least one character; the lazy group
captures up to (excluding) the first `，` or `。`, or to the end of the
input. -/
def parseReplaceTarget : List Char → Option String
  | [] => none
  | c :: rest =>
    if ("换掉".toList <+: c :: rest) ∨ ("替换".toList <+: c :: rest)
        ∨ ("不要".toList <+: c :: rest) then
      match (c :: rest).drop 2 with
      | [] => parseReplaceTarget rest
      | d :: ds =>
        some ⟨d :: ds.takeWhile fun ch => ¬(ch = '，' ∨ ch = '。')⟩
    else parseReplaceTarget rest

def parseReplaceDish (userInput : String) : Option String :=
  parseReplaceTarget userInput.toList

/-- The reply listing a proposed menu. -/
def menuMessage (menuRecommendations : List MenuRecommendation) : String :=
  "🎯 根据您的需求，我为您推荐以下菜单：\n\n"
  ++ (if menuRecommendations.isEmpty then
        "抱歉，暂时无法为您推荐合适的菜单。请尝试调整您的需求或重新开始。\n\n"
      else
        String.join (menuRecommendations.enum.map fun p =>
          toString (p.1 + 1) ++ ". **" ++ p.2.dishName ++ "**\n   "
            ++ p.2.recommendationReason ++ "\n\n"))
  ++ "您可以:\n• 输入\"确认\"接受这个菜单\n• 输入\"换掉[菜名]\"来替换某道菜\n• 告诉我您的具体要求来调整菜单"

/-- The reply asking for the missing preference fields. -/
def missingInfoMessage (validation : PreferenceValidation) : String :=
  "我需要更多信息来为您推荐菜单：\n\n"
  ++ String.intercalate "\n" (validation.missingInfo.map fun info => "• " ++ info)
  ++ (if 0 < validation.suggestions.length then
        "\n\n" ++ String.intercalate "\n" validation.suggestions
      else "")

/-- The reply listing up to three replacement alternatives (an absent
difficulty renders as the string `undefined`, as JS template interpolation
does). -/
def alternativesMessage (dishToReplace : String)
    (alternatives : List ProcessedRecipe) : String :=
  "🔄 为您找到了替换\"" ++ dishToReplace ++ "\"的选项：\n\n"
  ++ String.join ((alternatives.take 3).enum.map fun p =>
      toString (p.1 + 1) ++ ". **" ++ p.2.dishName ++ "**\n   口味："
        ++ String.intercalate "、" p.2.tags.taste ++ " | 难度："
        ++ (match p.2.difficulty with
            | some d => toString d
            | none => "undefined") ++ "星\n\n")
  ++ "请告诉我您想选择哪一道，或者给出其他要求。"

/-- `handleShoppingListGeneration`: deterministic shopping list, then the
workflow plan in the same turn. `planWorkflow` never throws (it degrades to
its deterministic fallback internally), so the source's inner catch branch is
unreachable; `generateCookingGuide` only writes a log file and swallows its
own errors, so it is not modelled. -/
def handleShoppingListGeneration (c : Collaborators) (s : Session) :
    Except String TurnResult × Session :=
  let shoppingList := generateShoppingList s.confirmedMenu
  let workflowPlan := planWorkflow c.workflowLLM s.confirmedMenu
  let message :=
    "🛒 **购物清单和用料准备**\n\n" ++ String.intercalate "\n" shoppingList
    ++ "\n\n现在我来为您规划最优的烹饪流程...\n\n⏰ **烹饪流程规划**\n\n"
    ++ workflowPlan
    ++ "\n\n🎉 一切准备就绪！您现在可以：\n• 询问任何关于这些菜品的制作问题\n• 问我某道菜的具体做法\n• 重新开始规划菜单（输入\"重新开始\"）\n\n📄 **完整的烹饪指南已保存到本地文件**，您可以在 `cooking-guides/` 目录中找到详细的 Markdown 文档。"
  (.ok { message := message, state := .readyForQuestions }, { s with state := .readyForQuestions })

/-- `handleWorkflowPlanning` (reachable only if a turn arrives while the
state is `PLANNING_WORKFLOW`). -/
def handleWorkflowPlanning (c : Collaborators) (s : Session) :
    Except String TurnResult × Session :=
  let workflowPlan := planWorkflow c.workflowLLM s.confirmedMenu
  let message :=
    "⏰ **烹饪流程规划**\n\n" ++ workflowPlan
    ++ "\n\n🎉 一切准备就绪！您现在可以：\n• 询问任何关于这些菜品的制作问题\n• 问我某道菜的具体做法\n• 重新开始规划菜单（输入\"重新开始\"）"
  (.ok { message := message, state := .readyForQuestions }, { s with state := .readyForQuestions })

/-- `handleQuestionInput`: reset phrases clear the session; otherwise the
first confirmed dish named in the input is answered from its stored
sections. -/
def handleQuestionInput (userInput : String) (s : Session) :
    Except String TurnResult × Session :=
  let lowerInput := jsToLower userInput
  if jsIncludes lowerInput "重新开始" ∨ jsIncludes lowerInput "重新规划" then
    (.ok { message := welcomeMessage, state := .awaitingPreferences }, resetSession)
  else
    match s.confirmedMenu.find? fun recipe =>
        jsIncludes userInput recipe.dishName with
    | some recipe =>
      let answer :=
        "关于 **" ++ recipe.dishName ++ "** 的制作：\n\n"
        ++ (if jsTruthyStr recipe.rawContent.steps then
              "**制作步骤：**\n" ++ recipe.rawContent.steps.getD ""
            else "")
        ++ (if jsTruthyStr recipe.rawContent.calculation then
              "\n\n**用量计算：**\n" ++ recipe.rawContent.calculation.getD ""
            else "")
        ++ "\n\n还有其他问题吗？"
      (.ok { message := answer, state := .readyForQuestions }, s)
    | none =>
      (.ok { message := "我可以回答关于已确认菜单中菜品的制作问题。请问您想了解哪道菜的具体做法？或者输入\"重新开始\"来规划新的菜单。", state := .readyForQuestions }, s)

/-- `handlePreferenceInput`: merge the extracted fields into the accumulated
preferences, re-prompt while the minimum-viable check fails, otherwise fetch
candidates, compose a menu and store it. The preference merge happens
*before* the fallible knowledge-base call, so it survives a thrown error. -/
def handlePreferenceInput (c : Collaborators) (userInput : String)
    (s : Session) : Except String TurnResult × Session :=
  let extractedPreferences :=
    extractIntentResult (c.extractIntentLLM userInput s.messages)
  let s := updateUserPreferences s extractedPreferences
  let validation := validatePreferences s.userPreferences
  if !validation.isValid then
    (.ok { message := missingInfoMessage validation, state := .awaitingPreferences }, s)
  else
    match c.kbCandidates s.userPreferences with
    | .error e => (.error e, s)
    | .ok candidates =>
      let menuRecommendations :=
        recommendMenu (c.menuLLM s.userPreferences candidates)
          s.userPreferences candidates
      let s := { s with recommendedMenu := menuRecommendations, state := .recommendingMenu }
      (.ok { message := menuMessage menuRecommendations, state := .recommendingMenu }, s)

/-- `handleMenuResponse`. -/
def handleMenuResponse (c : Collaborators) (userInput : String)
    (s : Session) : Except String TurnResult × Session :=
  match interpretAction userInput with
  | .confirm =>
    let dishNames := s.recommendedMenu.map fun item => item.dishName
    match confirmMenuLookup c dishNames with
    | .error e => (.error e, s)
    | .ok confirmedRecipes =>
      let s := { s with confirmedMenu := confirmedRecipes, state := .generatingShoppingList }
      handleShoppingListGeneration c s
  | .replace =>
    (match parseReplaceDish userInput with
     | some captured =>
       let dishToReplace := jsTrim captured
       match replaceDishAlternatives c dishToReplace none s with
       | .error e => (.error e, s)
       | .ok alternatives =>
         if 0 < alternatives.length then
           (.ok { message := alternativesMessage dishToReplace alternatives, state := .recommendingMenu }, s)
         else
           (.ok { message := "抱歉，我没有找到合适的替换选项。您可以告诉我更具体的要求吗？", state := .recommendingMenu }, s)
     | none =>
       (.ok { message := "抱歉，我没有找到合适的替换选项。您可以告诉我更具体的要求吗？", state := .recommendingMenu }, s))
  | .modify => handlePreferenceInput c userInput s
  | _ =>
    (.ok { message := "我没有完全理解您的意思。您可以说\"确认\"接受菜单，或者告诉我需要替换哪道菜。", state := .recommendingMenu }, s)

/-- The `switch` body of `processUserInput` (after the user message has been
appended). -/
def dispatchTurn (c : Collaborators) (userInput : String) (s : Session) :
    Except String TurnResult × Session :=
  match s.state with
  | .awaitingPreferences => handlePreferenceInput c userInput s
  | .recommendingMenu => handleMenuResponse c userInput s
  | .generatingShoppingList => handleShoppingListGeneration c s
  | .planningWorkflow => handleWorkflowPlanning c s
  | .readyForQuestions => handleQuestionInput userInput s

/-- `processUserInput`: append the user turn, dispatch on the current state,
and convert an escaped error into an apology reply carrying `this.state` as
it stands *after* whatever the handler already mutated. -/
def processUserInput (c : Collaborators) (userInput : String) (s : Session) :
    TurnResult × Session :=
  let s1 := { s with messages := s.messages ++ [{ role := .user, content := userInput }] }
  match dispatchTurn c userInput s1 with
  | (.ok result, s2) => (result, s2)
  | (.error e, s2) =>
    ({ message := "处理您的请求时出现了错误：" ++ e, state := s2.state }, s2)

/-! ## Concrete fixtures for witnesses and counterexamples -/

/-- An empty section map. -/
def emptyContent : RawContent :=
  { description := none, ingredientsAndTools := none, calculation := none,
    steps := none, additionalContent := none }

/-- A spicy dish: its name contains the spice keyword `辣` and no risk
keyword. -/
def spicyRaw : RawRecipe :=
  { dishName := "辣子鸡", sourceFile := "meat_dish/辣子鸡.md",
    contentHash := "hash-spicy", category := "meat_dish",
    rawContent := emptyContent }

/-- A mild dish used for cache fixtures. -/
def mildRaw : RawRecipe :=
  { dishName := "清蒸鲈鱼", sourceFile := "aquatic/清蒸鲈鱼.md",
    contentHash := "hash-mild", category := "aquatic",
    rawContent := emptyContent }

/-- The previously enriched record for `mildRaw`, with the same stored
fingerprint. -/
def mildProcessed : ProcessedRecipe :=
  { toRawRecipe := mildRaw, difficulty := some 2,
    tags := { taste := ["鲜"], cookingStyle := ["蒸"],
              season := ["春", "夏", "秋", "冬"],
              suitability := ["kid_friendly", "pregnancy_safe"] } }

/-- A tagging oracle that always fails (every claim-level statement
quantifies over the oracle; this one only feeds witnesses). -/
def failingTagLLM : RawRecipe → Except Unit RecipeTags := fun _ => .error ()

/-- Candidate-bucket fixture for the composer. -/
def kungPao : ProcessedRecipe :=
  { toRawRecipe :=
      { dishName := "宫保鸡丁", sourceFile := "meat_dish/宫保鸡丁.md",
        contentHash := "hash-kp", category := "meat_dish",
        rawContent :=
          { emptyContent with ingredientsAndTools := some "鸡肉 花生 辣椒" } },
    difficulty := some 3,
    tags := { taste := ["辣", "咸"], cookingStyle := ["炒"],
              season := ["春", "夏", "秋", "冬"], suitability := [] } }

def stirFriedGreens : ProcessedRecipe :=
  { toRawRecipe :=
      { dishName := "清炒时蔬", sourceFile := "vegetable_dish/清炒时蔬.md",
        contentHash := "hash-veg", category := "vegetable_dish",
        rawContent :=
          { emptyContent with ingredientsAndTools := some "时令蔬菜 蒜" } },
    difficulty := some 1,
    tags := { taste := ["鲜"], cookingStyle := ["炒"],
              season := ["春", "夏", "秋", "冬"],
              suitability := ["kid_friendly", "pregnancy_safe"] } }

def seaweedSoup : ProcessedRecipe :=
  { toRawRecipe :=
      { dishName := "紫菜蛋花汤", sourceFile := "soup/紫菜蛋花汤.md",
        contentHash := "hash-soup", category := "soup",
        rawContent :=
          { emptyContent with ingredientsAndTools := some "紫菜 鸡蛋" } },
    difficulty := some 1,
    tags := { taste := ["鲜"], cookingStyle := ["煮"],
              season := ["春", "夏", "秋", "冬"],
              suitability := ["kid_friendly", "pregnancy_safe"] } }

def sampleBuckets : CandidateDishes :=
  { mainDishes := [kungPao], vegetableDishes := [stirFriedGreens],
    soups := [seaweedSoup] }

/-- Preferences carrying only a people count. -/
def twoPeople : UserPreferences :=
  { emptyPreferences with peopleCount := some (some 2) }

/-- Index projections of the fixture dishes. -/
def kungPaoIdx : RecipeIndex :=
  { dishName := "宫保鸡丁", category := "meat_dish", difficulty := some 3,
    tags := kungPao.tags }

def greensIdx : RecipeIndex :=
  { dishName := "清炒时蔬", category := "vegetable_dish", difficulty := some 1,
    tags := stirFriedGreens.tags }

/-- A knowledge base with two coherent entries. -/
def sampleKB : KnowledgeBase :=
  { recipesIndex := [kungPaoIdx, greensIdx],
    recipesData := [("宫保鸡丁", kungPao), ("清炒时蔬", stirFriedGreens)] }

/-- Preferences asking for a taste no fixture dish carries. -/
def bitterPreferences : UserPreferences :=
  { emptyPreferences with tastePreferences := some (some ["苦"]) }

/-- Preferences asking only for kid-suitable ordering. -/
def kidPreferences : UserPreferences :=
  { emptyPreferences with specialGroup := some (some ["kid"]) }

/-- A knowledge base whose index lists an identifier absent from the data
table (the `幽灵菜` entry). -/
def ghostIdx : RecipeIndex :=
  { dishName := "幽灵菜", category := "vegetable_dish", difficulty := some 1,
    tags := { taste := ["鲜"], cookingStyle := ["炒"], season := [],
              suitability := [] } }

def brokenKB : KnowledgeBase :=
  { recipesIndex := [ghostIdx, greensIdx],
    recipesData := [("清炒时蔬", stirFriedGreens)] }

/-- Preferences with an ingredient exclusion (forces the data-table reads of
the hard filter). -/
def excludingPreferences : UserPreferences :=
  { emptyPreferences with ingredientExclusions := some (some ["海鲜"]) }

/-- Accumulated preferences before a failing extraction. -/
def priorPreferences : UserPreferences :=
  { peopleCount := some (some 4), tastePreferences := some (some ["辣"]),
    ingredientExclusions := none, specialGroup := none,
    maxCookingTimeMinutes := none }

/-- Collaborators whose intent extraction succeeds with a valid minimal
preference set but whose knowledge-base candidate fetch throws (a load
failure), as `KnowledgeBase.initialize` does when the artifacts are
missing. -/
def loadFailureCollaborators : Collaborators :=
  { extractIntentLLM := fun _ _ =>
      .ok { emptyPreferences with peopleCount := some (some 2), tastePreferences := some (some ["辣"]) }
    menuLLM := fun _ _ => .error ()
    workflowLLM := fun _ _ => .error ()
    kbCandidates := fun _ => .error "Failed to load recipe database"
    kbDishByName := fun _ => .error "Failed to load recipe database"
    kbByCategory := fun _ => .error "Failed to load recipe database" }

/-- Collaborators that are never consulted on the paths exercised. -/
def stubCollaborators : Collaborators :=
  { extractIntentLLM := fun _ _ => .error ()
    menuLLM := fun _ _ => .error ()
    workflowLLM := fun _ _ => .error ()
    kbCandidates := fun _ => .error "stub"
    kbDishByName := fun _ => .error "stub"
    kbByCategory := fun _ => .error "stub" }

/-- The session reached by merging the valid minimal extraction into a fresh
session (the state `processUserInput` leaves behind when the candidate fetch
then throws). -/
def mergedFreshSession (userInput : String) : Session :=
  { state := .awaitingPreferences
    messages := [{ role := .user, content := userInput }]
    userPreferences :=
      { emptyPreferences with peopleCount := some (some 2), tastePreferences := some (some ["辣"]) }
    recommendedMenu := []
    confirmedMenu := [] }

/-- A session mid-recommendation with accumulated preferences and a proposed
menu. -/
def recommendingSession : Session :=
  { state := .recommendingMenu
    messages := []
    userPreferences := priorPreferences
    recommendedMenu := [{ dishName := "宫保鸡丁", recommendationReason := "下饭" }]
    confirmedMenu := [] }

/-- A steady-state session ready for questions. -/
def readySession : Session :=
  { state := .readyForQuestions
    messages := []
    userPreferences := priorPreferences
    recommendedMenu := [{ dishName := "宫保鸡丁", recommendationReason := "下饭" }]
    confirmedMenu := [kungPao] }

/-! ## Theorems -/

theorem tagRecipe_callCount (llm : Except Unit RecipeTags) (r : RawRecipe) :
    (tagRecipe llm r).2 = 1 := by
  cases llm <;> rfl

theorem cacheHit_true {existingData : List (String × ProcessedRecipe)}
    {r : RawRecipe} {e : ProcessedRecipe}
    (h : existingData.lookup r.dishName = some e)
    (hh : e.contentHash = r.contentHash) : cacheHit existingData r = true := by
  simp [cacheHit, h, hh]

theorem tagRecipesIncremental_callCount
    (llm : RawRecipe → Except Unit RecipeTags) (rawRecipes : List RawRecipe)
    (existingData : List (String × ProcessedRecipe)) :
    (tagRecipesIncremental llm rawRecipes existingData).2
      = (rawRecipes.filter fun r => !cacheHit existingData r).length := by
  induction rawRecipes with
  | nil => rfl
  | cons r rs ih =>
    simp only [tagRecipesIncremental, List.filter_cons]
    rcases h : existingData.lookup r.dishName with _ | e
    · simp [cacheHit, h, ih, tagRecipe_callCount, Nat.add_comm]
    · by_cases hh : e.contentHash = r.contentHash
      · simp [cacheHit, h, hh, ih]
      · simp [cacheHit, h, hh, ih, tagRecipe_callCount, Nat.add_comm]

theorem tagRecipesIncremental_get
    (llm : RawRecipe → Except Unit RecipeTags) (rawRecipes : List RawRecipe)
    (existingData : List (String × ProcessedRecipe)) :
    ∀ i r e, rawRecipes.get? i = some r →
      existingData.lookup r.dishName = some e →
      e.contentHash = r.contentHash →
      (tagRecipesIncremental llm rawRecipes existingData).1.get? i = some e := by
  induction rawRecipes with
  | nil => intro i r e h; simp at h
  | cons r0 rs ih =>
    intro i r e hget hlook hhash
    cases i with
    | zero =>
      simp only [List.get?] at hget
      cases hget
      simp only [tagRecipesIncremental, hlook, hhash, if_pos]
      rfl
    | succ n =>
      simp only [List.get?] at hget
      have tail := ih n r e hget hlook hhash
      simp only [tagRecipesIncremental]
      rcases h : existingData.lookup r0.dishName with _ | e0
      · simpa using tail
      · by_cases hh : e0.contentHash = r0.contentHash
        · simp only [hh, if_pos]
          simpa using tail
        · simp only [hh, if_neg, ite_false]
          simpa using tail

/-- Claim C1: for every batch of raw records and every previously-enriched
map, `tagRecipesIncremental` (a) makes exactly one collaborator invocation
per record that misses the cache — so none for a record whose identifier has
a previous record with a matching stored fingerprint, (b) returns, at the
position of each cache-hitting record, exactly that previous enriched record
unchanged, and (c) performs zero collaborator invocations on an
all-unchanged batch. -/
theorem enrichIncremental_cache_correct
    (llm : RawRecipe → Except Unit RecipeTags) (rawRecipes : List RawRecipe)
    (existingData : List (String × ProcessedRecipe)) :
    ((tagRecipesIncremental llm rawRecipes existingData).2
        = (rawRecipes.filter fun r => !cacheHit existingData r).length)
    ∧ (∀ i r e, rawRecipes.get? i = some r →
        existingData.lookup r.dishName = some e →
        e.contentHash = r.contentHash →
        (tagRecipesIncremental llm rawRecipes existingData).1.get? i = some e)
    ∧ ((∀ r ∈ rawRecipes, cacheHit existingData r) →
        (tagRecipesIncremental llm rawRecipes existingData).2 = 0) := by
  refine ⟨tagRecipesIncremental_callCount llm rawRecipes existingData,
    tagRecipesIncremental_get llm rawRecipes existingData, ?_⟩
  intro hall
  rw [tagRecipesIncremental_callCount llm rawRecipes existingData]
  have : rawRecipes.filter (fun r => !cacheHit existingData r) = [] := by
    rw [List.filter_eq_nil_iff]
    intro r hr
    simp [hall r hr]
  simp [this]

/-- Witness for C1 at a concrete all-unchanged batch: the single raw record
matches its cached enrichment, the cached record is returned at position 0
and the collaborator is invoked zero times. -/
theorem enrichIncremental_cache_correct_witness :
    ((tagRecipesIncremental failingTagLLM [mildRaw]
        [("清蒸鲈鱼", mildProcessed)]).1.get? 0 = some mildProcessed)
    ∧ (tagRecipesIncremental failingTagLLM [mildRaw]
        [("清蒸鲈鱼", mildProcessed)]).2 = 0 :=
  ⟨(enrichIncremental_cache_correct failingTagLLM [mildRaw]
      [("清蒸鲈鱼", mildProcessed)]).2.1 0 mildRaw mildProcessed (by decide)
      (by decide) (by decide),
   (enrichIncremental_cache_correct failingTagLLM [mildRaw]
      [("清蒸鲈鱼", mildProcessed)]).2.2 (by decide)⟩

theorem generateFallbackMenu_names (candidateDishes : CandidateDishes)
    (peopleCount : Nat) :
    ∀ item ∈ generateFallbackMenu candidateDishes peopleCount,
      item.dishName ∈ availableDishNames candidateDishes := by
  intro item him
  simp only [generateFallbackMenu, List.mem_append, List.mem_map] at him
  simp only [availableDishNames, List.map_append, List.mem_append,
    List.mem_map]
  rcases him with (⟨dish, hd, he⟩ | ⟨dish, hd, he⟩) | hsoup
  · exact Or.inl (Or.inl ⟨dish, List.mem_of_mem_take hd, by rw [← he]⟩)
  · exact Or.inl (Or.inr ⟨dish, List.mem_of_mem_take hd, by rw [← he]⟩)
  · rcases Nat.decLt 0 (calculateMenuComposition peopleCount).soups with h | h
    · simp only [if_neg h] at hsoup
      cases hsoup
    · simp only [if_pos h, List.mem_map] at hsoup
      obtain ⟨dish, hd, he⟩ := hsoup
      exact Or.inr ⟨dish, List.mem_of_mem_take hd, by rw [← he]⟩

/-- Claim C2: every composer-returned item whose identifier is not in the
union of the candidate buckets is dropped from the validated result; when the
valid count falls below `totalDishes - 1`, or the collaborator call fails,
the whole result is replaced by the deterministic greedy fallback; and every
fallback identifier comes from the supplied buckets. -/
theorem recommendMenu_validation_fallback
    (llm : Except Unit (List MenuRecommendation))
    (preferences : UserPreferences) (candidateDishes : CandidateDishes) :
    (∀ item ∈ generateFallbackMenu candidateDishes
        (jsOrNat preferences.peopleCount.read 2),
      item.dishName ∈ availableDishNames candidateDishes)
    ∧ (∀ menu item, llm = .ok menu → item ∈ menu →
        item.dishName ∉ availableDishNames candidateDishes →
        item ∉ recommendMenu llm preferences candidateDishes)
    ∧ (∀ menu, llm = .ok menu →
        (menu.filter fun item =>
            (availableDishNames candidateDishes).contains item.dishName).length
          < (calculateMenuComposition
              (jsOrNat preferences.peopleCount.read 2)).totalDishes - 1 →
        recommendMenu llm preferences candidateDishes
          = generateFallbackMenu candidateDishes
              (jsOrNat preferences.peopleCount.read 2))
    ∧ (∀ e, llm = .error e →
        recommendMenu llm preferences candidateDishes
          = generateFallbackMenu candidateDishes
              (jsOrNat preferences.peopleCount.read 2)) := by
  refine ⟨generateFallbackMenu_names candidateDishes _, ?_, ?_, ?_⟩
  · intro menu item hllm hmem hnot hres
    subst hllm
    simp only [recommendMenu] at hres
    by_cases hlt : (menu.filter fun item =>
        (availableDishNames candidateDishes).contains item.dishName).length
          < (calculateMenuComposition
              (jsOrNat preferences.peopleCount.read 2)).totalDishes - 1
    · rw [if_pos hlt] at hres
      exact hnot (generateFallbackMenu_names candidateDishes _ item hres)
    · rw [if_neg hlt] at hres
      rcases List.mem_filter.mp hres with ⟨-, hc⟩
      exact hnot (by simpa using hc)
  · intro menu hllm hlt
    subst hllm
    simp only [recommendMenu]
    rw [if_pos hlt]
  · intro e hllm
    subst hllm
    rfl

/-- Witness for C2: at a failing collaborator call over the concrete fixture
buckets, the result is exactly the deterministic fallback menu. -/
theorem recommendMenu_validation_fallback_witness :
    recommendMenu (.error ()) twoPeople sampleBuckets
      = generateFallbackMenu sampleBuckets
          (jsOrNat twoPeople.peopleCount.read 2) :=
  (recommendMenu_validation_fallback (.error ()) twoPeople
    sampleBuckets).2.2.2 () rfl

/-- Claim C3: composition sizing — `peopleCount = 3` gives 2 mains, 2
vegetables, no soup; `peopleCount = 6` gives 4 mains, 3 vegetables, one soup;
an absent people count defaults to 2; and for every people count the number
of main dishes is at least the number of vegetable dishes, with
`main + vegetable = peopleCount + 1` and soup exactly for more than four
diners. -/
theorem menuComposition_sizing :
    calculateMenuComposition 3 = ⟨2, 2, 0, 4⟩
    ∧ calculateMenuComposition 6 = ⟨4, 3, 1, 8⟩
    ∧ jsOrNat (emptyPreferences.peopleCount.read) 2 = 2
    ∧ ∀ peopleCount : Nat,
        (calculateMenuComposition peopleCount).vegetableDishes
          ≤ (calculateMenuComposition peopleCount).mainDishes
        ∧ (calculateMenuComposition peopleCount).mainDishes
            + (calculateMenuComposition peopleCount).vegetableDishes
          = peopleCount + 1
        ∧ ((calculateMenuComposition peopleCount).soups
            = if 4 < peopleCount then 1 else 0) := by
  refine ⟨by decide, by decide, rfl, ?_⟩
  intro pc
  refine ⟨?_, ?_, rfl⟩ <;> · simp only [calculateMenuComposition]; omega

theorem tasteStage_no_match (preferences : UserPreferences)
    (recipesIndex : List RecipeIndex)
    (h1 : fieldNonEmpty preferences.tastePreferences = true)
    (h2 : recipesIndex.filter
        (tasteMatches (fieldList preferences.tastePreferences)) = []) :
    tasteStage preferences recipesIndex = (recipesIndex, true) := by
  simp [tasteStage, h1, h2]

theorem tasteStage_absent (preferences : UserPreferences)
    (recipesIndex : List RecipeIndex)
    (h : fieldNonEmpty preferences.tastePreferences = false) :
    tasteStage preferences recipesIndex = (recipesIndex, true) := by
  simp [tasteStage, h]

/-- Claim C4: a taste preference that matches no indexed recipe degrades
softly — the search behaves exactly as if the taste preference were removed
(same result, same post-call state); and when at least one recipe matches,
the working set is replaced by exactly the matching subset. -/
theorem searchRecipes_soft_filter (preferences : UserPreferences)
    (kb : KnowledgeBase) :
    (fieldNonEmpty preferences.tastePreferences = true →
      kb.recipesIndex.filter
          (tasteMatches (fieldList preferences.tastePreferences)) = [] →
      searchRecipes preferences kb
        = searchRecipes { preferences with tastePreferences := none } kb)
    ∧ (fieldNonEmpty preferences.tastePreferences = true →
      kb.recipesIndex.filter
          (tasteMatches (fieldList preferences.tastePreferences)) ≠ [] →
      (tasteStage preferences kb.recipesIndex).1
        = kb.recipesIndex.filter
            (tasteMatches (fieldList preferences.tastePreferences))) := by
  constructor
  · intro h1 h2
    have e1 := tasteStage_no_match preferences kb.recipesIndex h1 h2
    have e2 := tasteStage_absent { preferences with tastePreferences := none }
      kb.recipesIndex rfl
    simp only [searchRecipes, e1, e2]
  · intro h1 h2
    have hpos := List.length_pos.mpr h2
    simp [tasteStage, h1, hpos]

/-- Witness for C4: the fixture knowledge base holds no bitter dish, so a
bitter taste preference yields exactly the taste-free search outcome. -/
theorem searchRecipes_soft_filter_witness :
    searchRecipes bitterPreferences sampleKB
      = searchRecipes { bitterPreferences with tastePreferences := none }
          sampleKB :=
  (searchRecipes_soft_filter bitterPreferences sampleKB).1 (by decide)
    (by decide)

/-- Counterexample to C5 as stated: the spicy fixture dish contains the spice
keyword `辣` and no risk keyword, yet its fallback suitability still carries
`pregnancy_safe` — the pregnancy flag ignores spice keywords (only
`kid_friendly` requires their absence). -/
theorem fallbackTags_pregnancy_despite_spice_cex :
    hasSpiceKeyword spicyRaw = true
    ∧ hasRiskKeyword spicyRaw = false
    ∧ (generateFallbackTags spicyRaw).suitability = ["pregnancy_safe"] := by
  decide

theorem minMaxClamp_bounds (x : Nat) :
    1 ≤ min 5 (max 1 x) ∧ min 5 (max 1 x) ≤ 5 := by
  omega

theorem ifEmpty_default_ne_nil {l d : List String} (hd : d ≠ []) :
    (if l.isEmpty = true then d else l) ≠ [] := by
  cases l <;> simp_all

theorem fallbackTaste_ne_nil (recipe : RawRecipe) :
    fallbackTaste recipe ≠ [] := by
  unfold fallbackTaste
  exact ifEmpty_default_ne_nil (by simp)

theorem fallbackCookingStyle_ne_nil (recipe : RawRecipe) :
    fallbackCookingStyle recipe ≠ [] := by
  unfold fallbackCookingStyle
  exact ifEmpty_default_ne_nil (by split_ifs <;> simp)

/-- Claim C5, amended: the fallback tags always carry a non-empty taste set
(`香` by default), a non-empty cooking style (category default), all four
seasons; `kid_friendly` is flagged exactly in the absence of both risk and
spice keywords, while `pregnancy_safe` is flagged exactly in the absence of
risk keywords (spice keywords do not withhold it); and the locally computed
difficulty always lies in `[1, 5]`. -/
theorem fallbackTags_totality_amended (recipe : RawRecipe) :
    (generateFallbackTags recipe).taste ≠ []
    ∧ (generateFallbackTags recipe).cookingStyle ≠ []
    ∧ (generateFallbackTags recipe).season = ["春", "夏", "秋", "冬"]
    ∧ ("kid_friendly" ∈ (generateFallbackTags recipe).suitability
        ↔ (hasRiskKeyword recipe = false ∧ hasSpiceKeyword recipe = false))
    ∧ ("pregnancy_safe" ∈ (generateFallbackTags recipe).suitability
        ↔ hasRiskKeyword recipe = false)
    ∧ 1 ≤ estimateDifficulty recipe ∧ estimateDifficulty recipe ≤ 5 := by
  simp only [generateFallbackTags]
  refine ⟨fallbackTaste_ne_nil recipe, fallbackCookingStyle_ne_nil recipe,
    trivial, ?_, ?_, ?_, ?_⟩
  · by_cases hr : hasRiskKeyword recipe
      <;> by_cases hs : hasSpiceKeyword recipe
      <;> simp [generateFallbackTags, fallbackSuitability, hr, hs]
  · by_cases hr : hasRiskKeyword recipe
      <;> by_cases hs : hasSpiceKeyword recipe
      <;> simp [generateFallbackTags, fallbackSuitability, hr, hs]
  · exact (minMaxClamp_bounds _).1
  · exact (minMaxClamp_bounds _).2

/-- Claim C6 (code-bug evidence): a failed extraction returns an object whose
five keys are *present* with value `undefined`; spreading it over the
accumulated preferences therefore wipes every previously accumulated field
instead of leaving them unchanged. -/
theorem prefsMerge_failure_wipes :
    extractIntentResult (.error ())
      = ⟨some none, some none, some none, some none, some none⟩
    ∧ jsSpreadPreferences priorPreferences (extractIntentResult (.error ()))
      = ⟨some none, some none, some none, some none, some none⟩
    ∧ priorPreferences.peopleCount.read = some 4
    ∧ (jsSpreadPreferences priorPreferences
        (extractIntentResult (.error ()))).peopleCount.read = none
    ∧ (updateUserPreferences
        { initialSession with userPreferences := priorPreferences }
        (extractIntentResult (.error ()))).userPreferences
        ≠ priorPreferences := by
  decide

theorem tasteStage_aliased {preferences : UserPreferences}
    {recipesIndex workingSet : List RecipeIndex}
    (h : tasteStage preferences recipesIndex = (workingSet, true)) :
    workingSet = recipesIndex := by
  simp only [tasteStage] at h
  split at h
  · split at h
    · have hsnd := congrArg Prod.snd h
      simp at hsnd
    · exact (congrArg Prod.fst h).symm
  · exact (congrArg Prod.fst h).symm

theorem specialGroupSort_perm (specialGroup : List String)
    (candidates : List RecipeIndex) :
    (specialGroupSort specialGroup candidates).Perm candidates :=
  List.perm_insertionSort _ candidates

/-- Claim C9, amended: `searchRecipes` never touches the data table and
neither adds nor removes index entries — the post-call index is a permutation
of the pre-call index — but it is *not* mutation-free: when `specialGroup` is
non-empty and the taste stage kept the whole set, the in-place suitability
sort reorders the stored index itself. -/
theorem searchRecipes_frame_amended (preferences : UserPreferences)
    (kb : KnowledgeBase) :
    ((searchRecipes preferences kb).2).recipesData = kb.recipesData
    ∧ ((searchRecipes preferences kb).2).recipesIndex.Perm kb.recipesIndex := by
  rcases hts : tasteStage preferences kb.recipesIndex with ⟨workingSet, aliased⟩
  simp only [searchRecipes, hts]
  split
  · rename_i hcond
    refine ⟨rfl, ?_⟩
    have hal : aliased = true := hcond.2
    have hws : workingSet = kb.recipesIndex := tasteStage_aliased (hal ▸ hts)
    simp only [hcond.1, if_pos]
    exact hws ▸ specialGroupSort_perm _ workingSet
  · exact ⟨rfl, List.Perm.refl _⟩

/-- Counterexample to C9 as stated: with a kid special group and no taste
subsetting, the suitability sort permutes the shared stored index in place
(`greensIdx` is kid-friendly and moves ahead of `kungPaoIdx`), so the
post-call state differs from the pre-call state. -/
theorem searchRecipes_mutates_index_cex :
    ((searchRecipes kidPreferences sampleKB).2).recipesIndex
      = [greensIdx, kungPaoIdx]
    ∧ sampleKB.recipesIndex = [kungPaoIdx, greensIdx]
    ∧ (searchRecipes kidPreferences sampleKB).2 ≠ sampleKB := by
  decide

/-- Claim C10, amended: `getRecipesByCategory` is the one query method that
recovers from an index identifier missing in the data table — every record it
returns is a genuine data-table entry of an index row (its `recipe != null`
filter drops the missing ones) and it cannot throw; `searchRecipes` and
`getRecipesByDifficulty` enjoy no such protection. -/
theorem getRecipesByCategory_safe (kb : KnowledgeBase) (category : String) :
    ∀ r ∈ getRecipesByCategory kb category,
      ∃ e ∈ kb.recipesIndex, kb.recipesData.lookup e.dishName = some r := by
  intro r hr
  simp only [getRecipesByCategory, List.mem_filterMap, List.mem_map,
    id_eq] at hr
  obtain ⟨o, ⟨e, he, heq⟩, hid⟩ := hr
  exact ⟨e, (List.mem_filter.mp he).1, by rw [heq]; exact hid⟩

/-- Witness for C10 (amended): on the broken fixture knowledge base, the one
category result is backed by a real data-table entry. -/
theorem getRecipesByCategory_safe_witness :
    ∃ e ∈ brokenKB.recipesIndex,
      brokenKB.recipesData.lookup e.dishName = some stirFriedGreens :=
  getRecipesByCategory_safe brokenKB "vegetable_dish" stirFriedGreens
    (by decide)

/-- Counterexample to C10 as stated: with the ghost identifier in the index
but absent from the data table, `getRecipesByDifficulty` returns a list
containing `none` (JS `undefined`) — a missing record in the result — and
`searchRecipes` with a non-empty ingredient exclusion throws. -/
theorem queryLayer_missing_record_cex :
    getRecipesByDifficulty brokenKB 5 = [none, some stirFriedGreens]
    ∧ searchRecipes excludingPreferences brokenKB = (.error (), brokenKB) :=
  ⟨by decide, rfl⟩

theorem handlePreferenceInput_error {c : Collaborators} {userInput : String}
    {s : Session} {e : String} {s2 : Session}
    (h : handlePreferenceInput c userInput s = (.error e, s2)) :
    s2.state = s.state ∧ s2.recommendedMenu = s.recommendedMenu
      ∧ s2.confirmedMenu = s.confirmedMenu ∧ s2.messages = s.messages := by
  simp only [handlePreferenceInput] at h
  split at h
  · simp at h
  · split at h
    · simp only [Prod.mk.injEq] at h
      obtain ⟨-, h2⟩ := h
      subst h2
      exact ⟨rfl, rfl, rfl, rfl⟩
    · simp at h

theorem handleShoppingListGeneration_ne_error {c : Collaborators}
    {s : Session} {e : String} {s2 : Session}
    (h : handleShoppingListGeneration c s = (.error e, s2)) : False := by
  simp [handleShoppingListGeneration] at h

theorem handleWorkflowPlanning_ne_error {c : Collaborators} {s : Session}
    {e : String} {s2 : Session}
    (h : handleWorkflowPlanning c s = (.error e, s2)) : False := by
  simp [handleWorkflowPlanning] at h

theorem handleQuestionInput_ne_error {userInput : String} {s : Session}
    {e : String} {s2 : Session}
    (h : handleQuestionInput userInput s = (.error e, s2)) : False := by
  simp only [handleQuestionInput] at h
  split at h
  · simp at h
  · split at h <;> simp at h

theorem handleMenuResponse_error {c : Collaborators} {userInput : String}
    {s : Session} {e : String} {s2 : Session}
    (h : handleMenuResponse c userInput s = (.error e, s2)) :
    s2.state = s.state ∧ s2.recommendedMenu = s.recommendedMenu
      ∧ s2.confirmedMenu = s.confirmedMenu ∧ s2.messages = s.messages := by
  simp only [handleMenuResponse] at h
  split at h
  · -- confirm branch
    split at h
    · simp only [Prod.mk.injEq] at h
      obtain ⟨-, h2⟩ := h
      subst h2
      exact ⟨rfl, rfl, rfl, rfl⟩
    · exact absurd h (by simp [handleShoppingListGeneration])
  · -- replace branch
    split at h
    · split at h
      · simp only [Prod.mk.injEq] at h
        obtain ⟨-, h2⟩ := h
        subst h2
        exact ⟨rfl, rfl, rfl, rfl⟩
      · split at h <;> simp at h
    · simp at h
  · -- modify branch
    exact handlePreferenceInput_error h
  · -- unrecognized / question branch
    simp at h

theorem dispatchTurn_error_frame {c : Collaborators} {userInput : String}
    {s : Session} {e : String} {s2 : Session}
    (h : dispatchTurn c userInput s = (.error e, s2)) :
    s2.state = s.state ∧ s2.recommendedMenu = s.recommendedMenu
      ∧ s2.confirmedMenu = s.confirmedMenu ∧ s2.messages = s.messages := by
  unfold dispatchTurn at h
  cases hst : s.state <;> rw [hst] at h
  · have hh := handlePreferenceInput_error h
    rwa [hst] at hh
  · have hh := handleMenuResponse_error h
    rwa [hst] at hh
  · exact absurd h (fun h => handleShoppingListGeneration_ne_error h)
  · exact absurd h (fun h => handleWorkflowPlanning_ne_error h)
  · exact absurd h (fun h => handleQuestionInput_ne_error h)

/-- Claim C7, amended: when a turn's handler throws, the top-level catch
replies with the error message and the dialogue state, proposed menu and
confirmed record set are left at their pre-call values — but the accumulated
preferences are *not* rolled back: fields merged before the throwing
knowledge-base call persist (see the counterexample). -/
theorem processUserInput_error_frame_amended (c : Collaborators)
    (userInput : String) (s : Session) (e : String) (s2 : Session)
    (h : dispatchTurn c userInput
        { s with messages := s.messages
            ++ [{ role := .user, content := userInput }] } = (.error e, s2)) :
    processUserInput c userInput s
      = ({ message := "处理您的请求时出现了错误：" ++ e, state := s.state }, s2)
    ∧ s2.state = s.state
    ∧ s2.recommendedMenu = s.recommendedMenu
    ∧ s2.confirmedMenu = s.confirmedMenu := by
  have frame := dispatchTurn_error_frame h
  refine ⟨?_, frame.1, frame.2.1, frame.2.2.1⟩
  simp only [processUserInput, h]
  rw [frame.1]

/-- Counterexample to C7 as stated: with a collaborator set whose candidate
fetch throws, the caught error is reported and the state stays
`AWAITING_PREFERENCES`, but the session's accumulated preferences have
already absorbed the merge performed before the throw — the session is not
in its pre-call state. -/
theorem processUserInput_prefs_mutated_cex :
    (processUserInput loadFailureCollaborators "2个人吃辣" initialSession).1
      = { message := "处理您的请求时出现了错误：Failed to load recipe database",
          state := .awaitingPreferences }
    ∧ (processUserInput loadFailureCollaborators "2个人吃辣"
        initialSession).2.userPreferences ≠ initialSession.userPreferences := by
  decide

/-- Witness for C7 (amended) at the concrete failing fixture. -/
theorem processUserInput_error_frame_witness :
    processUserInput loadFailureCollaborators "2个人吃辣" initialSession
      = ({ message := "处理您的请求时出现了错误：Failed to load recipe database",
           state := .awaitingPreferences }, mergedFreshSession "2个人吃辣")
    ∧ (mergedFreshSession "2个人吃辣").state = initialSession.state
    ∧ (mergedFreshSession "2个人吃辣").recommendedMenu
        = initialSession.recommendedMenu
    ∧ (mergedFreshSession "2个人吃辣").confirmedMenu
        = initialSession.confirmedMenu :=
  processUserInput_error_frame_amended loadFailureCollaborators "2个人吃辣"
    initialSession "Failed to load recipe database"
    (mergedFreshSession "2个人吃辣") rfl

/-- Claim C8, amended: from `READY_FOR_QUESTIONS` — and only there — a reset
utterance returns the session to `AWAITING_PREFERENCES` with the accumulated
preferences, the proposed menu and the confirmed set cleared; in the other
states the reset phrases are not recognized (see the counterexample in
`RECOMMENDING_MENU`). -/
theorem reset_from_ready_amended (c : Collaborators) (s : Session)
    (userInput : String) (hstate : s.state = .readyForQuestions)
    (hreset : jsIncludes (jsToLower userInput) "重新开始" = true
      ∨ jsIncludes (jsToLower userInput) "重新规划" = true) :
    processUserInput c userInput s
      = ({ message := welcomeMessage, state := .awaitingPreferences },
         resetSession)
    ∧ resetSession.state = .awaitingPreferences
    ∧ resetSession.userPreferences = emptyPreferences
    ∧ resetSession.recommendedMenu = []
    ∧ resetSession.confirmedMenu = [] := by
  refine ⟨?_, rfl, rfl, rfl, rfl⟩
  simp only [processUserInput, dispatchTurn, hstate, handleQuestionInput]
  rw [if_pos hreset]

/-- Witness for C8 (amended): the reset phrase in the ready state clears the
concrete session. -/
theorem reset_from_ready_witness :
    processUserInput stubCollaborators "重新开始" readySession
      = ({ message := welcomeMessage, state := .awaitingPreferences },
         resetSession) :=
  (reset_from_ready_amended stubCollaborators readySession "重新开始" rfl
    (Or.inl (by decide))).1

/-- Counterexample to C8 as stated: in `RECOMMENDING_MENU` the reset phrase
is classified as an unrecognized follow-up — the session stays in
`RECOMMENDING_MENU` and neither the accumulated preferences nor the proposed
menu are cleared. -/
theorem reset_not_from_recommending_cex :
    (processUserInput stubCollaborators "重新开始" recommendingSession).1.state
      = .recommendingMenu
    ∧ (processUserInput stubCollaborators "重新开始"
        recommendingSession).2.state = .recommendingMenu
    ∧ (processUserInput stubCollaborators "重新开始"
        recommendingSession).2.userPreferences = priorPreferences
    ∧ priorPreferences ≠ emptyPreferences
    ∧ (processUserInput stubCollaborators "重新开始"
        recommendingSession).2.recommendedMenu
      = [{ dishName := "宫保鸡丁", recommendationReason := "下饭" }] := by
  decide
